import Mathlib

/-! Shallow embedding of the NEAR escrow contract in `src/src/lib.rs`.

Modelling conventions:
* `AccountId` and term names are `String`; the `f64` asset quantity is
  modelled as `ℚ`, since the contract only compares quantities for equality
  and prints them.
* The persistent collections (`UnorderedMap`, `UnorderedSet`, `LookupSet`)
  are association lists / lists with the library's behaviour:
  `insert` overwrites in place or appends, `remove` is a swap-remove.
* Every `assert!` / `assert_eq!` / `Option::unwrap` failure is a NEAR panic,
  which aborts the call and rolls back all state changes of the call; an
  operation therefore has type `Except ContractError Contract`, and an
  `Except.error` result means the pre-state persists unchanged.
* `near_sdk::collections::UnorderedMap::get` returns an owned, deserialized
  copy of the stored value.  `dep_asset` and `withdraw_asset` call
  `toggle_satisfied` on such a copy and never `insert` it back, so the
  stored transaction entry is unchanged; the embedding reproduces this.
* The caller (`env::current_account_id()`) is passed as an explicit
  argument.  `println!` output in `execute` is fire-and-forget and carries
  no state. -/

namespace Escrow

abbrev AccountId := String

structure Asset where
  name : String
  quantity : ℚ
deriving DecidableEq

structure Transaction where
  sender : AccountId
  receiver : AccountId
  asset : Asset
  satisfied : Bool
deriving DecidableEq

def Transaction.new (sender receiver : AccountId) (asset : Asset) : Transaction :=
  { sender := sender, receiver := receiver, asset := asset, satisfied := false }

def Transaction.toggle_satisfied (t : Transaction) : Transaction :=
  { t with satisfied := !t.satisfied }

/-- `UnorderedMap::get`: the stored value for a key, as an owned copy. -/
def mapGet {α : Type} (l : List (String × α)) (k : String) : Option α :=
  (l.find? (fun p => p.1 == k)).map (fun p => p.2)

/-- `UnorderedMap::insert`: overwrite in place when the key is present,
otherwise append. -/
def mapInsert {α : Type} (l : List (String × α)) (k : String) (v : α) :
    List (String × α) :=
  match l with
  | [] => [(k, v)]
  | p :: rest => if p.1 == k then (k, v) :: rest else p :: mapInsert rest k v

/-- `UnorderedMap::remove`: swap-remove — the last entry is moved into the
removed slot. -/
def mapSwapRemove {α : Type} (l : List (String × α)) (k : String) :
    List (String × α) :=
  match l.findIdx? (fun p => p.1 == k) with
  | none => l
  | some i =>
    match l.getLast? with
    | none => l
    | some last => (l.set i last).dropLast

/-- `UnorderedSet::insert` / `LookupSet::insert`: idempotent insert. -/
def setInsert (l : List String) (k : String) : List String :=
  if l.contains k then l else l ++ [k]

/-- One constructor per distinct panic site of the contract.  The spec's
taxonomy maps onto these as: `onlyOwner` = AuthorizationError (owner),
`wrongSender` = AuthorizationError (sender), `txNotFound` = NotFoundError,
`alreadyDeposited` and `alreadyAgreed` = StateError, `assetNameMismatch` and
`assetQuantityMismatch` = MismatchError (carrying expected and actual, as
`assert_eq!` prints its left and right operands), `notAllAgreed` =
ConsensusError, `unsatisfiedTx` = UnsatisfiedTermError (carrying the format
arguments of the source message: sender, asset name, quantity), and
`unwrapPanic` = the bare `Option::unwrap` failure in `get_tx`, which carries
no contract-level message. -/
inductive ContractError where
  | onlyOwner : ContractError
  | notAllAgreed : ContractError
  | alreadyAgreed : ContractError
  | txNotFound : ContractError
  | alreadyDeposited : ContractError
  | assetNameMismatch (expected actual : String) : ContractError
  | assetQuantityMismatch (expected actual : ℚ) : ContractError
  | wrongSender (expected actual : AccountId) : ContractError
  | unsatisfiedTx (sender assetName : String) (quantity : ℚ) : ContractError
  | unwrapPanic : ContractError
deriving DecidableEq

structure Contract where
  assets : List (AccountId × Asset)
  transactions : List (String × Transaction)
  owners : List AccountId
  signatures : List AccountId
deriving DecidableEq

def Contract.new (owners_in : List AccountId) : Contract :=
  { assets := []
    transactions := []
    owners := owners_in.foldl setInsert []
    signatures := [] }

def Contract.assert_owner (c : Contract) (caller : AccountId) :
    Except ContractError Unit :=
  if c.owners.contains caller then Except.ok () else Except.error ContractError.onlyOwner

def Contract.assert_agreement (c : Contract) : Except ContractError Unit :=
  if c.owners.all (fun o => c.signatures.contains o) then Except.ok ()
  else Except.error ContractError.notAllAgreed

def Contract.assert_no_agreement (c : Contract) : Except ContractError Unit :=
  if c.owners.any (fun o => c.signatures.contains o) then
    Except.error ContractError.alreadyAgreed
  else Except.ok ()

def Contract.assert_txs_satisfied (c : Contract) : Except ContractError Unit :=
  match c.transactions.find? (fun p => !p.2.satisfied) with
  | some p =>
    Except.error (ContractError.unsatisfiedTx p.2.sender p.2.asset.name p.2.asset.quantity)
  | none => Except.ok ()

def Contract.add_tx (c : Contract) (caller : AccountId) (tx_name : String)
    (sender receiver : AccountId) (asset_type : String) (quantity : ℚ) :
    Except ContractError Contract :=
  match c.assert_owner caller with
  | Except.error e => Except.error e
  | Except.ok _ =>
    match c.assert_no_agreement with
    | Except.error e => Except.error e
    | Except.ok _ =>
      let ass : Asset := { name := asset_type, quantity := quantity }
      let tx : Transaction :=
        { sender := sender, receiver := receiver, asset := ass, satisfied := false }
      Except.ok { c with transactions := mapInsert c.transactions tx_name tx }

def Contract.rm_tx (c : Contract) (caller : AccountId) (tx_name : String) :
    Except ContractError Contract :=
  match c.assert_owner caller with
  | Except.error e => Except.error e
  | Except.ok _ =>
    match c.assert_no_agreement with
    | Except.error e => Except.error e
    | Except.ok _ =>
      Except.ok { c with transactions := mapSwapRemove c.transactions tx_name }

/-- `get_tx` unwraps the map lookup: an absent name is the bare
`Option::unwrap` panic, not the contract's NotFoundError message. -/
def Contract.get_tx (c : Contract) (tx_name : String) :
    Except ContractError Transaction :=
  match mapGet c.transactions tx_name with
  | some tx => Except.ok tx
  | none => Except.error ContractError.unwrapPanic

/-- `dep_asset`: agreement check, then existence, already-satisfied, asset
name, asset quantity and sender checks, then `assets.insert`.  The source's
final `tx.toggle_satisfied()` mutates the local copy obtained from `get`
and is never written back, so `transactions` is unchanged on success. -/
def Contract.dep_asset (c : Contract) (caller : AccountId) (asset : Asset)
    (tx_name : String) : Except ContractError Contract :=
  match c.assert_agreement with
  | Except.error e => Except.error e
  | Except.ok _ =>
    match mapGet c.transactions tx_name with
    | none => Except.error ContractError.txNotFound
    | some tx =>
      if tx.satisfied then Except.error ContractError.alreadyDeposited
      else if tx.asset.name = asset.name then
        if tx.asset.quantity = asset.quantity then
          if tx.sender = caller then
            Except.ok { c with assets := mapInsert c.assets caller asset }
          else Except.error (ContractError.wrongSender tx.sender caller)
        else
          Except.error (ContractError.assetQuantityMismatch tx.asset.quantity asset.quantity)
      else Except.error (ContractError.assetNameMismatch tx.asset.name asset.name)

/-- `withdraw_asset`: existence and sender checks, then `assets.remove`.
There is no agreement and no satisfied-flag precondition.  The source's
final `tx.toggle_satisfied()` again mutates an unsaved local copy, so
`transactions` is unchanged on success. -/
def Contract.withdraw_asset (c : Contract) (caller : AccountId)
    (tx_name : String) : Except ContractError Contract :=
  match mapGet c.transactions tx_name with
  | none => Except.error ContractError.txNotFound
  | some tx =>
    if tx.sender = caller then
      Except.ok { c with assets := mapSwapRemove c.assets caller }
    else Except.error (ContractError.wrongSender tx.sender caller)

def Contract.sign (c : Contract) (caller : AccountId) :
    Except ContractError Contract :=
  match c.assert_owner caller with
  | Except.error e => Except.error e
  | Except.ok _ => Except.ok { c with signatures := setInsert c.signatures caller }

def Contract.execute (c : Contract) : Except ContractError Contract :=
  match c.assert_agreement with
  | Except.error e => Except.error e
  | Except.ok _ =>
    match c.assert_txs_satisfied with
    | Except.error e => Except.error e
    | Except.ok _ => Except.ok { c with assets := [] }

/-- The contract's state-mutating entry points (`&mut self` methods);
`get_tx` takes `&self` and cannot change state. -/
inductive Op where
  | addTx (caller tx_name sender receiver asset_type : String) (quantity : ℚ) : Op
  | rmTx (caller tx_name : String) : Op
  | depAsset (caller : String) (asset : Asset) (tx_name : String) : Op
  | withdrawAsset (caller tx_name : String) : Op
  | signOp (caller : String) : Op
  | executeOp : Op

def applyOp (c : Contract) : Op → Except ContractError Contract
  | Op.addTx caller tx_name sender receiver asset_type quantity =>
    c.add_tx caller tx_name sender receiver asset_type quantity
  | Op.rmTx caller tx_name => c.rm_tx caller tx_name
  | Op.depAsset caller asset tx_name => c.dep_asset caller asset tx_name
  | Op.withdrawAsset caller tx_name => c.withdraw_asset caller tx_name
  | Op.signOp caller => c.sign caller
  | Op.executeOp => c.execute

def isUnsatisfiedErr : Except ContractError Contract → Bool
  | Except.error (ContractError.unsatisfiedTx _ _ _) => true
  | _ => false

def isMismatchErr : Except ContractError Contract → Bool
  | Except.error (ContractError.assetNameMismatch _ _) => true
  | Except.error (ContractError.assetQuantityMismatch _ _) => true
  | _ => false

/-- State for C1: one owner `a` who has signed, one unsatisfied term `t1`
requiring 4 gold from `a`, empty deposit map. -/
def c1pre : Contract :=
  { assets := []
    transactions := [("t1", ⟨"a", "b", ⟨"gold", 4⟩, false⟩)]
    owners := ["a"]
    signatures := ["a"] }

def c1post : Contract :=
  { c1pre with assets := [("a", ⟨"gold", 4⟩)] }

/-- State for C2: as `c1pre` but the stored term is satisfied and `a`'s
deposit is recorded. -/
def c2pre : Contract :=
  { assets := [("a", ⟨"gold", 4⟩)]
    transactions := [("t1", ⟨"a", "b", ⟨"gold", 4⟩, true⟩)]
    owners := ["a"]
    signatures := ["a"] }

def c2post : Contract :=
  { c2pre with assets := [] }

/-- State for the C3 witness: owner `b` has not signed. -/
def w3 : Contract :=
  { assets := [], transactions := [], owners := ["a", "b"], signatures := ["a"] }

/-- State for the C4 counterexample: owner `a` has not signed and term `t1`
is unsatisfied. -/
def cex4 : Contract :=
  { assets := []
    transactions := [("t1", ⟨"a", "b", ⟨"gold", 4⟩, false⟩)]
    owners := ["a"]
    signatures := [] }

/-- State for the C4 witness: owner `a` has signed and term `t1` is
unsatisfied while `a`'s deposit is outstanding in the map. -/
def w4 : Contract :=
  { assets := [("x", ⟨"iron", 2⟩)]
    transactions := [("t1", ⟨"a", "b", ⟨"gold", 4⟩, false⟩)]
    owners := ["a"]
    signatures := ["a"] }

/-- State for the C5 counterexample: owner `a` has not signed and term `t1`
is unsatisfied. -/
def cex5 : Contract :=
  { assets := []
    transactions := [("t1", ⟨"a", "b", ⟨"gold", 4⟩, false⟩)]
    owners := ["a"]
    signatures := [] }

/-- State for the C5 witness: owner `a` has signed and term `t1` is
unsatisfied. -/
def w5 : Contract :=
  { assets := []
    transactions := [("t1", ⟨"a", "b", ⟨"gold", 4⟩, false⟩)]
    owners := ["a"]
    signatures := ["a"] }

/-- State for the C6 counterexample: the single owner `a` has signed. -/
def cex6 : Contract :=
  { assets := [], transactions := [], owners := ["a"], signatures := ["a"] }

/-- State for the C6 witness: identical shape, used with an owner caller. -/
def w6 : Contract :=
  { assets := [], transactions := [], owners := ["a"], signatures := ["a"] }

/-- State for the C7 witness: ratified, term satisfied, deposit recorded —
`execute` succeeds on it. -/
def w7 : Contract :=
  { assets := [("a", ⟨"gold", 4⟩)]
    transactions := [("t1", ⟨"a", "b", ⟨"gold", 4⟩, true⟩)]
    owners := ["a"]
    signatures := ["a"] }

def w7post : Contract :=
  { w7 with assets := [] }

/-- State for the C9 witness. -/
def w9 : Contract := Contract.new ["a"]

def w9post : Contract :=
  { w9 with signatures := ["a"] }

/-- State for the C10 witness: term `t1` exists, is unsatisfied, requires
exactly 4 gold from `a`, but owner `a` has not signed. -/
def w10 : Contract :=
  { assets := []
    transactions := [("t1", ⟨"a", "b", ⟨"gold", 4⟩, false⟩)]
    owners := ["a"]
    signatures := [] }

theorem owners_not_all_signed {c : Contract} {o : AccountId} (ho : o ∈ c.owners)
    (hs : c.signatures.contains o = false) :
    ¬ ∀ x ∈ c.owners, x ∈ c.signatures := by
  intro hf
  have hmem : o ∉ c.signatures := by simpa using hs
  exact hmem (hf o ho)

theorem owners_all_signed {c : Contract}
    (hagree : ∀ o ∈ c.owners, c.signatures.contains o = true) :
    ∀ x ∈ c.owners, x ∈ c.signatures := by
  intro x hx
  simpa using hagree x hx

/-- C1 (code bug): on a matching deposit, `dep_asset` succeeds and records
`assets[caller] = asset`, but the stored term's `satisfied` flag is still
`false` afterwards — the source toggles only an unsaved local copy, while
the claim (and the spec) say the stored term becomes satisfied. -/
theorem dep_asset_no_persist :
    c1pre.dep_asset "a" ⟨"gold", 4⟩ "t1" = Except.ok c1post ∧
    mapGet c1post.assets "a" = some ⟨"gold", 4⟩ ∧
    (mapGet c1post.transactions "t1").map Transaction.satisfied = some false := by
  exact ⟨rfl, rfl, rfl⟩

/-- C2 (code bug): with the stored term satisfied and the caller equal to
its sender, `withdraw_asset` succeeds and removes the caller's deposit-map
entry, but the stored term's `satisfied` flag remains `true` (the toggle is
applied to an unsaved copy), so a subsequent `execute` succeeds instead of
failing with the unsatisfied-term error the claim requires. -/
theorem withdraw_no_toggle :
    c2pre.withdraw_asset "a" "t1" = Except.ok c2post ∧
    c2post.assets = [] ∧
    (mapGet c2post.transactions "t1").map Transaction.satisfied = some true ∧
    c2post.execute = Except.ok { c2post with assets := [] } := by
  exact ⟨rfl, rfl, rfl, rfl⟩

/-- C3: `execute` succeeds only when every owner is in the signature set,
and whenever some owner's signature is missing it fails with the
ConsensusError panic (`notAllAgreed`); the failure happens before any
mutation, and a NEAR panic rolls the call back, so the state is
unchanged. -/
theorem execute_unanimity (c : Contract) :
    (∀ c', c.execute = Except.ok c' → ∀ o ∈ c.owners, c.signatures.contains o = true) ∧
    (∀ o ∈ c.owners, c.signatures.contains o = false →
      c.execute = Except.error ContractError.notAllAgreed) := by
  have key : ∀ o ∈ c.owners, c.signatures.contains o = false →
      c.execute = Except.error ContractError.notAllAgreed := by
    intro o ho hs
    have hnot := owners_not_all_signed ho hs
    simp [Contract.execute, Contract.assert_agreement, hnot]
  refine ⟨?_, key⟩
  intro c' hok o ho
  cases hcs : c.signatures.contains o with
  | true => rfl
  | false =>
    rw [key o ho hcs] at hok
    exact Except.noConfusion hok

theorem execute_unanimity_witness :
    Contract.execute w3 = Except.error ContractError.notAllAgreed :=
  (execute_unanimity w3).2 "b" (by decide) (by decide)

/-- C4 counterexample: in `cex4` term `t1` is unsatisfied, yet `execute`
fails with the ConsensusError panic (owner `a` has not signed), not with
the UnsatisfiedTermError the claim requires for every such state. -/
theorem execute_unsat_claim_cex :
    cex4.transactions = [("t1", ⟨"a", "b", ⟨"gold", 4⟩, false⟩)] ∧
    Contract.execute cex4 = Except.error ContractError.notAllAgreed ∧
    isUnsatisfiedErr (Contract.execute cex4) = false := by
  exact ⟨rfl, rfl, rfl⟩

/-- C4 (amended): when every owner has signed and some term is unsatisfied,
`execute` fails with the UnsatisfiedTermError panic reporting the first
unsatisfied term's required sender, asset name and quantity (the term's map
key is not part of the message); the panic precedes `assets.clear()` and
rolls the call back, so the deposit map is unchanged. -/
theorem execute_reports_unsatisfied (c : Contract) (p0 : String × Transaction)
    (hagree : ∀ o ∈ c.owners, c.signatures.contains o = true)
    (hfind : c.transactions.find? (fun p => !p.2.satisfied) = some p0) :
    c.execute =
      Except.error (ContractError.unsatisfiedTx p0.2.sender p0.2.asset.name p0.2.asset.quantity) := by
  have hall := owners_all_signed hagree
  simp [Contract.execute, Contract.assert_agreement, eq_true hall,
    Contract.assert_txs_satisfied, hfind]

theorem execute_reports_unsatisfied_witness :
    Contract.execute w4 =
      Except.error (ContractError.unsatisfiedTx "a" "gold" 4) :=
  execute_reports_unsatisfied w4 ("t1", ⟨"a", "b", ⟨"gold", 4⟩, false⟩)
    (by decide) rfl

/-- C5 counterexample: in `cex5` term `t1` exists, is unsatisfied, and the
offered asset differs in quantity (5 instead of 4), yet `dep_asset` fails
with the ConsensusError panic (owner `a` has not signed), not with a
MismatchError as the claim requires for every such state. -/
theorem dep_mismatch_claim_cex :
    mapGet cex5.transactions "t1" = some ⟨"a", "b", ⟨"gold", 4⟩, false⟩ ∧
    cex5.dep_asset "a" ⟨"gold", 5⟩ "t1" = Except.error ContractError.notAllAgreed ∧
    isMismatchErr (cex5.dep_asset "a" ⟨"gold", 5⟩ "t1") = false := by
  exact ⟨rfl, rfl, rfl⟩

/-- C5 (amended): when every owner has signed, the named term exists and is
unsatisfied, and the offered asset's name or quantity differs from the
term's required asset, `dep_asset` fails with a mismatch panic carrying
both the expected and the actual value (the name is compared first); the
panic rolls the call back, so the term's flag stays false and the deposit
map is unchanged. -/
theorem dep_mismatch (c : Contract) (caller : AccountId) (asset : Asset)
    (tx_name : String) (tx : Transaction)
    (hagree : ∀ o ∈ c.owners, c.signatures.contains o = true)
    (htx : mapGet c.transactions tx_name = some tx)
    (hunsat : tx.satisfied = false)
    (hmis : tx.asset.name ≠ asset.name ∨ tx.asset.quantity ≠ asset.quantity) :
    c.dep_asset caller asset tx_name =
      Except.error (ContractError.assetNameMismatch tx.asset.name asset.name) ∨
    c.dep_asset caller asset tx_name =
      Except.error (ContractError.assetQuantityMismatch tx.asset.quantity asset.quantity) := by
  have hall := owners_all_signed hagree
  by_cases hn : tx.asset.name = asset.name
  · right
    have hq : tx.asset.quantity ≠ asset.quantity := by
      rcases hmis with h | h
      · exact absurd hn h
      · exact h
    simp [Contract.dep_asset, Contract.assert_agreement, eq_true hall, htx, hunsat, hn, hq]
  · left
    simp [Contract.dep_asset, Contract.assert_agreement, eq_true hall, htx, hunsat, hn]

theorem dep_mismatch_witness :
    w5.dep_asset "a" ⟨"gold", 5⟩ "t1" =
      Except.error (ContractError.assetNameMismatch "gold" "gold") ∨
    w5.dep_asset "a" ⟨"gold", 5⟩ "t1" =
      Except.error (ContractError.assetQuantityMismatch 4 5) :=
  dep_mismatch w5 "a" ⟨"gold", 5⟩ "t1" ⟨"a", "b", ⟨"gold", 4⟩, false⟩
    (by decide) rfl rfl (Or.inr (by decide))

/-- C6 counterexample: in `cex6` an owner has signed, yet for the non-owner
caller `z` both `add_tx` and `rm_tx` fail with the owner-authorization
panic (`assert_owner` runs first), not with the StateError the claim
requires regardless of caller. -/
theorem edits_any_caller_cex :
    cex6.add_tx "z" "t1" "s" "r" "gold" 4 = Except.error ContractError.onlyOwner ∧
    cex6.rm_tx "z" "t1" = Except.error ContractError.onlyOwner ∧
    ContractError.onlyOwner ≠ ContractError.alreadyAgreed := by
  exact ⟨rfl, rfl, by decide⟩

/-- C6 (amended): once any owner has signed, `add_tx` and `rm_tx` fail with
the StateError panic (`alreadyAgreed`) for every caller that is an owner
(a non-owner caller hits the authorization panic first); the panic rolls
the call back, so the term map is unchanged. -/
theorem edits_blocked_after_sign (c : Contract) (caller : AccountId)
    (hown : c.owners.contains caller = true)
    (hsig : ∃ o ∈ c.owners, c.signatures.contains o = true)
    (tx_name sender receiver asset_type : String) (q : ℚ) :
    c.add_tx caller tx_name sender receiver asset_type q =
      Except.error ContractError.alreadyAgreed ∧
    c.rm_tx caller tx_name = Except.error ContractError.alreadyAgreed := by
  have hmem : caller ∈ c.owners := by simpa using hown
  have hex : ∃ x ∈ c.owners, x ∈ c.signatures := by
    obtain ⟨o, ho, hs⟩ := hsig
    exact ⟨o, ho, by simpa using hs⟩
  constructor
  · simp [Contract.add_tx, Contract.assert_owner, Contract.assert_no_agreement, hmem, hex]
  · simp [Contract.rm_tx, Contract.assert_owner, Contract.assert_no_agreement, hmem, hex]

theorem edits_blocked_after_sign_witness :
    w6.add_tx "a" "t1" "s" "r" "gold" 4 = Except.error ContractError.alreadyAgreed ∧
    w6.rm_tx "a" "t1" = Except.error ContractError.alreadyAgreed :=
  edits_blocked_after_sign w6 "a" (by decide) ⟨"a", by decide, by decide⟩
    "t1" "s" "r" "gold" 4

/-- C7: whenever `execute` succeeds, the resulting state has an empty
deposit map while the term map, the signature set and the owner set are
exactly those of the pre-state. -/
theorem execute_frame (c c' : Contract) (h : c.execute = Except.ok c') :
    c'.assets = [] ∧ c'.transactions = c.transactions ∧
    c'.signatures = c.signatures ∧ c'.owners = c.owners := by
  unfold Contract.execute at h
  split at h
  · exact Except.noConfusion h
  · split at h
    · exact Except.noConfusion h
    · injection h with h
      subst h
      exact ⟨rfl, rfl, rfl, rfl⟩

theorem execute_frame_witness :
    w7post.assets = [] ∧ w7post.transactions = w7.transactions ∧
    w7post.signatures = w7.signatures ∧ w7post.owners = w7.owners :=
  execute_frame w7 w7post rfl

/-- C8 counterexample: on the absent name `t1`, `get_tx` aborts through the
bare `Option::unwrap` panic, which is distinct from the contract's
`txNotFound` ("Transaction not in contract") error, refuting the claim
that the failure is a normal reported NotFoundError. -/
theorem get_tx_claim_cex :
    (Contract.new ["a"]).get_tx "t1" = Except.error ContractError.unwrapPanic ∧
    ContractError.unwrapPanic ≠ ContractError.txNotFound := by
  exact ⟨rfl, by decide⟩

/-- C8 (amended): for every term name absent from the term map, `get_tx`
fails through the unchecked `Option::unwrap` panic, carrying no
NotFoundError message. -/
theorem get_tx_unwrap (c : Contract) (tx_name : String)
    (h : mapGet c.transactions tx_name = none) :
    c.get_tx tx_name = Except.error ContractError.unwrapPanic := by
  simp [Contract.get_tx, h]

theorem get_tx_unwrap_witness :
    (Contract.new ["a"]).get_tx "zz" = Except.error ContractError.unwrapPanic :=
  get_tx_unwrap (Contract.new ["a"]) "zz" rfl

/-- C9 counterexample: `Contract.new []` performs no validation — its
return type has no error channel, mirroring the Rust `new`, and on the
empty owner list it returns a normal contract whose owner set is empty,
refuting the claimed ConfigError failure. -/
theorem new_empty_owners_cex :
    Contract.new [] =
      { assets := [], transactions := [], owners := [], signatures := [] } ∧
    (Contract.new []).owners = [] := by
  exact ⟨rfl, rfl⟩

/-- C9 (amended): `new` accepts an empty owner list (the reference performs
no ConfigError check), and the owner set is immutable after construction:
no state-mutating operation of the contract changes it. -/
theorem owners_immutable (c : Contract) (op : Op) (c' : Contract)
    (h : applyOp c op = Except.ok c') : c'.owners = c.owners := by
  cases op with
  | addTx caller tx_name sender receiver asset_type quantity =>
    simp only [applyOp] at h
    unfold Contract.add_tx at h
    repeat' split at h
    all_goals first
      | exact Except.noConfusion h
      | (injection h with h; subst h; rfl)
  | rmTx caller tx_name =>
    simp only [applyOp] at h
    unfold Contract.rm_tx at h
    repeat' split at h
    all_goals first
      | exact Except.noConfusion h
      | (injection h with h; subst h; rfl)
  | depAsset caller asset tx_name =>
    simp only [applyOp] at h
    unfold Contract.dep_asset at h
    repeat' split at h
    all_goals first
      | exact Except.noConfusion h
      | (injection h with h; subst h; rfl)
  | withdrawAsset caller tx_name =>
    simp only [applyOp] at h
    unfold Contract.withdraw_asset at h
    repeat' split at h
    all_goals first
      | exact Except.noConfusion h
      | (injection h with h; subst h; rfl)
  | signOp caller =>
    simp only [applyOp] at h
    unfold Contract.sign at h
    repeat' split at h
    all_goals first
      | exact Except.noConfusion h
      | (injection h with h; subst h; rfl)
  | executeOp =>
    simp only [applyOp] at h
    unfold Contract.execute at h
    repeat' split at h
    all_goals first
      | exact Except.noConfusion h
      | (injection h with h; subst h; rfl)

theorem owners_immutable_witness : w9post.owners = w9.owners :=
  owners_immutable w9 (Op.signOp "a") w9post rfl

/-- C10: whenever some owner has not signed, `dep_asset` fails with the
not-all-owners-agreed panic before any other check — for every caller,
asset and term name, including ones that would pass the existence,
satisfied, match and sender checks — and the rollback leaves every
collection unchanged. -/
theorem dep_checks_agreement_first (c : Contract) (caller : AccountId)
    (asset : Asset) (tx_name : String) (o : AccountId) (ho : o ∈ c.owners)
    (hs : c.signatures.contains o = false) :
    c.dep_asset caller asset tx_name = Except.error ContractError.notAllAgreed := by
  have hnot := owners_not_all_signed ho hs
  simp [Contract.dep_asset, Contract.assert_agreement, hnot]

theorem dep_checks_agreement_first_witness :
    mapGet w10.transactions "t1" = some ⟨"a", "b", ⟨"gold", 4⟩, false⟩ ∧
    w10.dep_asset "a" ⟨"gold", 4⟩ "t1" = Except.error ContractError.notAllAgreed :=
  ⟨rfl, dep_checks_agreement_first w10 "a" ⟨"gold", 4⟩ "t1" "a" (by decide) (by decide)⟩

end Escrow
